import Mathlib

/-!
Shallow embedding of the Launchkey Mk3 control-surface protocol engine:
the connection/handshake state machine of the `LaunchkeyMk3` class
(`launchkey_mk3_midi.cc`, `launchkey_mk3_ports.cc`) and the bank engine
`RangeControllableSet` (`rangecontrollableset.cc`).  MIDI bytes are `Nat`,
buffers are `List Nat`, outgoing MIDI messages are collected in a list of
byte lists, and calls into ARDOUR controllables are collected as effects.
-/

namespace LaunchkeyMk3

/-- Enum `LkPadMode` from `launchkey_mk3.h`. -/
inductive LkPadMode where
  | DRUM | SESSION | SCALE_CHORDS | USER_CHORDS
  | CUSTOM0 | CUSTOM1 | CUSTOM2 | CUSTOM3
  | DEVICE_SELECT | NAVIGATION
deriving DecidableEq, Repr

/-- Enum `LkPotMode` from `launchkey_mk3.h`. -/
inductive LkPotMode where
  | VOLUME | DEVICE | PAN | SEND_A | SEND_B
  | CUSTOM0 | CUSTOM1 | CUSTOM2 | CUSTOM3
deriving DecidableEq, Repr

/-- Enum `LkFaderMode` from `launchkey_mk3.h`. -/
inductive LkFaderMode where
  | VOLUME | DEVICE | SEND_A | SEND_B
  | CUSTOM0 | CUSTOM1 | CUSTOM2 | CUSTOM3
deriving DecidableEq, Repr

/-- The mutable fields of the `LaunchkeyMk3` class that the protocol engine
touches: `connection_state` (C `int` bitset), `device_active`, `in_daw_mode`,
`has_faders` and the three current modes. -/
structure LkState where
  connection_state : Nat
  device_active : Bool
  in_daw_mode : Bool
  has_faders : Bool
  current_pad_mode : LkPadMode
  current_pot_mode : LkPotMode
  current_fader_mode : LkFaderMode
deriving DecidableEq, Repr

/-- Flag `ConnectionState::InputConnected = 0x1`. -/
def InputConnected : Nat := 1

/-- Flag `ConnectionState::OutputConnected = 0x2`. -/
def OutputConnected : Nat := 2

/-- The constructor initializes `connection_state(0)`, `device_active(false)`,
`in_daw_mode(false)`; `has_faders` and the three mode fields are left
uninitialized in C++, so they are parameters here. -/
def initState (hf : Bool) (pad : LkPadMode) (pot : LkPotMode) (fad : LkFaderMode) : LkState :=
  { connection_state := 0
  , device_active := false
  , in_daw_mode := false
  , has_faders := hf
  , current_pad_mode := pad
  , current_pot_mode := pot
  , current_fader_mode := fad }

/-- The bitset update in `port_connection_handler`: `|= InputConnected`,
`&= ~InputConnected` (on a 32-bit int, `~1 = 0xFFFFFFFE`), and likewise for
`OutputConnected`. -/
def updateConnState (cs : Nat) (isInput yn : Bool) : Nat :=
  if isInput then
    if yn then cs ||| InputConnected else cs &&& 0xFFFFFFFE
  else
    if yn then cs ||| OutputConnected else cs &&& 0xFFFFFFFD

/-- Handler `LaunchkeyMk3::port_connection_handler` (`launchkey_mk3_ports.cc`,
restricted to events about this surface's own input/output ports): update the
`connection_state` bit for the named port, then set `device_active` to whether
both bits are now set (`connected()`/`disconnected()` are empty stubs). -/
def port_connection_handler (st : LkState) (isInput yn : Bool) : LkState :=
  if updateConnState st.connection_state isInput yn &&& (InputConnected ||| OutputConnected)
      = (InputConnected ||| OutputConnected) then
    { st with connection_state := updateConnState st.connection_state isInput yn
            , device_active := true }
  else
    { st with connection_state := updateConnState st.connection_state isInput yn
            , device_active := false }

/-- The outer sysex check in `LaunchkeyMk3::handle_midi_sysex`: a universal
device-identification answer (`sz >= 5`, `F0 7E _ 06 02`). -/
def sysexOuterCheck (buf : List Nat) : Bool :=
  decide (5 ≤ buf.length) && decide (buf.getD 0 0 = 0xF0) && decide (buf.getD 1 0 = 0x7E)
    && decide (buf.getD 3 0 = 0x06) && decide (buf.getD 4 0 = 0x02)

/-- The inner sysex check in `LaunchkeyMk3::handle_midi_sysex`: a Launchkey
reply (`sz >= 17`, Novation signature `00 20 29` at bytes 5..7, reserved bytes
10..11 zero, terminator `F7` at byte 16). -/
def sysexInnerCheck (buf : List Nat) : Bool :=
  decide (17 ≤ buf.length) && decide (buf.getD 5 0 = 0x00) && decide (buf.getD 6 0 = 0x20)
    && decide (buf.getD 7 0 = 0x29) && decide (buf.getD 10 0 = 0x00)
    && decide (buf.getD 11 0 = 0x00) && decide (buf.getD 16 0 = 0xF7)

/-- Full identification-reply envelope: both checks of `handle_midi_sysex`. -/
def validIdentReply (buf : List Nat) : Bool :=
  sysexOuterCheck buf && sysexInnerCheck buf

/-- The `switch (launchkeySize)` statement of `handle_midi_sysex`: size codes
0x34/0x35 clear `has_faders`, 0x36/0x37/0x40 set it, anything else falls
through without touching it. -/
def applySizeCode (st : LkState) (code : Nat) : LkState :=
  match code with
  | 0x34 => { st with has_faders := false }
  | 0x35 => { st with has_faders := false }
  | 0x36 => { st with has_faders := true }
  | 0x37 => { st with has_faders := true }
  | 0x40 => { st with has_faders := true }
  | _ => st

/-- The size-code table of the spec (also the one realized by
`applySizeCode`): `none` for codes outside the table. -/
def fadersFor (code : Nat) : Option Bool :=
  match code with
  | 0x34 => some false
  | 0x35 => some false
  | 0x36 => some true
  | 0x37 => some true
  | 0x40 => some true
  | _ => none

/-- Handler `LaunchkeyMk3::handle_midi_sysex` (`launchkey_mk3_midi.cc`): on a full
identification reply, decode the size code into `has_faders`, send the DAW-mode
note-on `9F 0C 7F`, set `in_daw_mode`, send the pickup note-on `9F 0A 7F`, and
initialize the default modes (pads SESSION, pots PAN, faders VOLUME).  Returns
the new state and the list of sent MIDI messages. -/
def handle_midi_sysex (st : LkState) (buf : List Nat) : LkState × List (List Nat) :=
  if sysexOuterCheck buf = true then
    if sysexInnerCheck buf = true then
      let st1 := applySizeCode st (buf.getD 8 0)
      ({ st1 with
           in_daw_mode := true
         , current_pad_mode := LkPadMode.SESSION
         , current_pot_mode := LkPotMode.PAN
         , current_fader_mode := LkFaderMode.VOLUME },
       [[0x9F, 0x0C, 0x7F], [0x9F, 0x0A, 0x7F]])
    else (st, [])
  else (st, [])

/-- Teardown `LaunchkeyMk3::stop_midi_handling`: only when `device_active && in_daw_mode`,
send the DAW-mode note-off `8F 0C 00`, clear `in_daw_mode`, and send the pickup
note-off `8F 0A 00`. -/
def stop_midi_handling (st : LkState) : LkState × List (List Nat) :=
  if st.device_active && st.in_daw_mode then
    ({ st with in_daw_mode := false }, [[0x8F, 0x0C, 0x00], [0x8F, 0x0A, 0x00]])
  else (st, [])

/-- The events delivered to the `LaunchkeyMk3` engine: port-connectivity
changes, incoming sysex, and teardown. -/
inductive LkEvent where
  | portConn (isInput yn : Bool)
  | sysex (buf : List Nat)
  | stopMidi
deriving DecidableEq, Repr

/-- One engine step.  Incoming MIDI is only parsed (and hence sysex only
dispatched) while `device_active` holds, per `handle_incoming_midi`. -/
def lkStep (st : LkState) : LkEvent → LkState × List (List Nat)
  | LkEvent.portConn i y => (port_connection_handler st i y, [])
  | LkEvent.sysex buf => if st.device_active = true then handle_midi_sysex st buf else (st, [])
  | LkEvent.stopMidi => stop_midi_handling st

/-- Run the engine over a list of events, keeping only the state. -/
def lkRun (st : LkState) (evts : List LkEvent) : LkState :=
  evts.foldl (fun s e => (lkStep s e).1) st

/-- Run only the port-connection handler over a list of
(is-input, connected) events. -/
def portRun (st : LkState) (evts : List (Bool × Bool)) : LkState :=
  evts.foldl (fun s e => port_connection_handler s e.1 e.2) st

end LaunchkeyMk3

namespace RangeControllableSet

/-- An `ARDOUR::AutomationControl` handle: an identity (for tracking which
control an effect targets) and its `interface_to_internal` mapping. -/
structure Handle where
  hid : Nat
  interface_to_internal : ℚ → ℚ

/-- Enum `PBD::Controllable::GroupControlDisposition`; this surface always writes
with `NoGroup`. -/
inductive GroupDisposition where
  | InverseGroup | NoGroup | UseGroup | ForGroup
deriving DecidableEq, Repr

/-- A `PluginInsert` as queried by the `MODE_DEVICE` branch:
`parameter_count`, `nth_parameter i` (`none` when the `ok` flag is false),
and `control` lookup by parameter id. -/
structure PluginIns where
  parameter_count : Nat
  nth_parameter : Nat → Option Nat
  control : Nat → Option Handle

/-- A track as seen through the calls `reassign_stripables` makes on it: each
control getter returns a possibly-null `shared_ptr`, and `nth_plugin (0)`
(combined with the two dynamic casts) yields a plugin insert or nothing. -/
structure Track where
  gain_control : Option Handle
  pan_azimuth_control : Option Handle
  send_level_0 : Option Handle
  send_level_1 : Option Handle
  nth_plugin_0 : Option PluginIns

/-- The session as seen through `get_remote_nth_stripable (i, Track)`:
an ordered list of tracks, queried by position. -/
structure SessionM where
  tracks : List Track

/-- Mode `MODE_VOLUME = 1` of the `ControllableMode` enum from
`rangecontrollableset.h`.  The C++
enum is backed by an `int` and `midi_cc_receiver_16` casts arbitrary nonzero
payload bytes into it, so modes are plain naturals here. -/
def MODE_VOLUME : Nat := 1

/-- Mode `MODE_DEVICE = 2`. -/
def MODE_DEVICE : Nat := 2

/-- Mode `MODE_PAN = 3`. -/
def MODE_PAN : Nat := 3

/-- Mode `MODE_SEND_A = 4`. -/
def MODE_SEND_A : Nat := 4

/-- Mode `MODE_SEND_B = 5`. -/
def MODE_SEND_B : Nat := 5

/-- Mode `MODE_CUSTOM0 = 6`. -/
def MODE_CUSTOM0 : Nat := 6

/-- The `switch (_current_mode)` inside the non-device loop of
`reassign_stripables`: VOLUME → gain, PAN → pan azimuth, SEND_A/B → send
levels 0/1; the CUSTOM cases (and any out-of-range value, the switch has no
default) leave the control null. -/
def controlFor (mode : Nat) (t : Track) : Option Handle :=
  match mode with
  | 1 => t.gain_control
  | 3 => t.pan_azimuth_control
  | 4 => t.send_level_0
  | 5 => t.send_level_1
  | _ => none

/-- The non-device loop of `reassign_stripables`: for `i` up to 8, stop
(`break`) at the first position with no stripable, otherwise push the
mode-selected control of track `i`. -/
def assignFrom (sess : SessionM) (mode : Nat) : Nat → Nat → List (Option Handle)
  | _, 0 => []
  | i, fuel + 1 =>
    match sess.tracks[i]? with
    | none => []
    | some t => controlFor mode t :: assignFrom sess mode (i + 1) fuel

/-- The `MODE_DEVICE` branch of `reassign_stripables`: take the first track,
its first plugin, and push the first `min 8 parameter_count` parameter
controls (null when the `ok` flag is false or the control lookup fails). -/
def deviceAssign (sess : SessionM) : List (Option Handle) :=
  match sess.tracks[0]? with
  | none => []
  | some t =>
    match t.nth_plugin_0 with
    | none => []
    | some pl =>
      let num_params := min 8 pl.parameter_count
      (List.range num_params).map (fun i => (pl.nth_parameter i).bind pl.control)

/-- Rebuild `RangeControllableSet::reassign_stripables`: clear `controllables` and
rebuild them for the current mode. -/
def reassign_stripables (sess : SessionM) (mode : Nat) : List (Option Handle) :=
  if mode ≠ MODE_DEVICE then assignFrom sess mode 0 8
  else deviceAssign sess

/-- The bank state: `_faders` (immutable), `_current_mode`, and the
`controllables` vector (null entries are unbound indices). -/
structure Bank where
  faders : Bool
  current_mode : Nat
  controllables : List (Option Handle)

/-- Constant `_starting_cc`: 0x35 for faders, 0x15 for pots. -/
def startingCC (faders : Bool) : Nat := if faders then 0x35 else 0x15

/-- Switch `RangeControllableSet::mode_switch`: set `_current_mode` and rebuild the
bindings from the session as it is at switch time. -/
def mode_switch (sess : SessionM) (new_mode : Nat) (b : Bank) : Bank :=
  { b with current_mode := new_mode, controllables := reassign_stripables sess new_mode }

/-- The constructor: pots initialize in PAN mode, faders in VOLUME mode. -/
def initBank (sess : SessionM) (faders : Bool) : Bank :=
  mode_switch sess (if faders then MODE_VOLUME else MODE_PAN)
    { faders := faders, current_mode := 0, controllables := [] }

/-- Calls the bank makes on automation controls, recorded by target handle
id: `start_touch`, `stop_touch`, and `set_value v NoGroup` where `v` is the
already-converted internal value. -/
inductive Eff where
  | startTouch (hid : Nat)
  | stopTouch (hid : Nat)
  | setValue (hid : Nat) (v : ℚ) (g : GroupDisposition)
deriving DecidableEq

/-- Handler `RangeControllableSet::touch_event`: if the index is in range and bound,
forward `start_touch`/`stop_touch` to the control; otherwise do nothing. -/
def touch_event (b : Bank) (id : Nat) (isOn : Bool) : List Eff :=
  match b.controllables[id]? with
  | some (some h) => if isOn then [Eff.startTouch h.hid] else [Eff.stopTouch h.hid]
  | _ => []

/-- Handler `RangeControllableSet::new_value_received`: if the index is in range and
bound, `start_touch` the control, then `set_value` with
`interface_to_internal (value / 127.0)` and `NoGroup`; otherwise nothing. -/
def new_value_received (b : Bank) (id value : Nat) : List Eff :=
  match b.controllables[id]? with
  | some (some h) =>
    [ Eff.startTouch h.hid
    , Eff.setValue h.hid (h.interface_to_internal ((value : ℚ) / 127)) GroupDisposition.NoGroup ]
  | _ => []

/-- Receiver `RangeControllableSet::midi_cc_receiver_15` (touch channel): drop CCs
below `_starting_cc`; compute `id = controller_number - _starting_cc`; drop
`id >= 9` and, for pot banks, `id >= 8`; otherwise a touch event with
`on = value > 64`. -/
def midi_cc_receiver_15 (b : Bank) (controller_number value : Nat) : List Eff :=
  if controller_number < startingCC b.faders then []
  else if 9 ≤ controller_number - startingCC b.faders
       ∨ (8 ≤ controller_number - startingCC b.faders ∧ b.faders = false) then []
  else touch_event b (controller_number - startingCC b.faders) (decide (64 < value))

/-- Receiver `RangeControllableSet::midi_cc_receiver_16` (value channel): CC 0x09
(pots) / 0x0A (faders) is the mode-select controller — payload 0 falls back
to `MODE_CUSTOM0`, anything else is cast to the mode — and triggers
`mode_switch`; otherwise CCs in this bank's index range are value updates. -/
def midi_cc_receiver_16 (sess : SessionM) (b : Bank) (controller_number value : Nat) :
    Bank × List Eff :=
  if (b.faders = false ∧ controller_number = 0x09) ∨
     (b.faders = true ∧ controller_number = 0x0A) then
    (mode_switch sess (if value = 0 then MODE_CUSTOM0 else value) b, [])
  else if controller_number < startingCC b.faders then (b, [])
  else if 9 ≤ controller_number - startingCC b.faders
       ∨ (8 ≤ controller_number - startingCC b.faders ∧ b.faders = false) then (b, [])
  else (b, new_value_received b (controller_number - startingCC b.faders) value)

/-- Incoming CC events on the two bank channels.  A `cc16` event carries the
session as the provider sees it at that moment, since `mode_switch` queries
the session live. -/
inductive BankEvent where
  | cc15 (controller value : Nat)
  | cc16 (sess : SessionM) (controller value : Nat)

/-- One bank step: dispatch an event to its receiver. -/
def bankStep (b : Bank) : BankEvent → Bank × List Eff
  | BankEvent.cc15 c v => (b, midi_cc_receiver_15 b c v)
  | BankEvent.cc16 sess c v => midi_cc_receiver_16 sess b c v

/-- Run the bank over a list of events, keeping only the state. -/
def bankRun (b : Bank) (evts : List BankEvent) : Bank :=
  evts.foldl (fun s e => (bankStep s e).1) b

/-- The binding at an index: `none` both for out-of-range indices and for
null entries. -/
def bindingAt (b : Bank) (i : Nat) : Option Handle :=
  b.controllables[i]?.getD none

/-- The provider-resolution function the spec describes, read off from the
queries `reassign_stripables` makes: for non-device modes, index `i < 8`
resolves through track `i`; `MODE_DEVICE` resolves the first
`min 8 parameter_count` parameters of the first track's first plugin;
everything else is unresolvable. -/
def resolveSpec (sess : SessionM) (mode i : Nat) : Option Handle :=
  if mode ≠ MODE_DEVICE then
    if i < 8 then (sess.tracks[i]?).bind (controlFor mode) else none
  else
    match sess.tracks[0]? with
    | none => none
    | some t =>
      match t.nth_plugin_0 with
      | none => none
      | some pl =>
        if i < min 8 pl.parameter_count then (pl.nth_parameter i).bind pl.control
        else none

/-- Gesture bookkeeping of the external controls: `start_touch` marks a
control touched, `stop_touch` releases it (value updates re-touch via their
leading `start_touch`). -/
def applyEff (touched : List Nat) : Eff → List Nat
  | Eff.startTouch h => if h ∈ touched then touched else h :: touched
  | Eff.stopTouch h => touched.filter (fun x => x ≠ h)
  | Eff.setValue _ _ _ => touched

/-- Apply a list of effects to the touched-control ledger, in order. -/
def applyEffs (touched : List Nat) (effs : List Eff) : List Nat :=
  effs.foldl applyEff touched

/-- A bank together with the gesture state of the controls it has touched. -/
structure BankSys where
  bank : Bank
  touched : List Nat

/-- One step of the bank-plus-controls system. -/
def sysStep (s : BankSys) (e : BankEvent) : BankSys :=
  { bank := (bankStep s.bank e).1
  , touched := applyEffs s.touched (bankStep s.bank e).2 }

/-- Run the bank-plus-controls system over a list of events. -/
def sysRun (s : BankSys) (evts : List BankEvent) : BankSys :=
  evts.foldl sysStep s

/-- The spec's `touch_state` read off the system: the control indices whose
current binding is a control in touched (gesture-active) state. -/
def touch_state (s : BankSys) : List Nat :=
  (List.range 9).filter (fun i =>
    match s.bank.controllables[i]? with
    | some (some h) => decide (h.hid ∈ s.touched)
    | _ => false)

end RangeControllableSet

open LaunchkeyMk3 RangeControllableSet

lemma applySizeCode_has_faders (st : LkState) (code : Nat) (fb : Bool)
    (h : fadersFor code = some fb) :
    (applySizeCode st code).has_faders = fb := by
  unfold fadersFor at h
  unfold applySizeCode
  split at h <;> simp_all

/-- C1: a sysex matching the full identification-reply envelope whose size
code is in the table sets `has_faders` to the table's value, sends exactly the
DAW-mode note-on `9F 0C 7F` followed by the pickup note-on `9F 0A 7F`, sets
`in_daw_mode`, and initializes the default bank modes (pots PAN, faders
VOLUME). -/
theorem c1_ident_reply_activation (st : LkState) (buf : List Nat) (fb : Bool)
    (hOuter : sysexOuterCheck buf = true) (hInner : sysexInnerCheck buf = true)
    (hCode : fadersFor (buf.getD 8 0) = some fb) :
    (handle_midi_sysex st buf).1.has_faders = fb
    ∧ (handle_midi_sysex st buf).2 = [[0x9F, 0x0C, 0x7F], [0x9F, 0x0A, 0x7F]]
    ∧ (handle_midi_sysex st buf).1.in_daw_mode = true
    ∧ (handle_midi_sysex st buf).1.current_pot_mode = LkPotMode.PAN
    ∧ (handle_midi_sysex st buf).1.current_fader_mode = LkFaderMode.VOLUME := by
  have hf := applySizeCode_has_faders st (buf.getD 8 0) fb hCode
  simp [handle_midi_sysex, hOuter, hInner]
  simpa using hf

/-- A concrete Launchkey 49 identification reply (size code 0x36). -/
def replyBuf49 : List Nat :=
  [0xF0, 0x7E, 0x00, 0x06, 0x02, 0x00, 0x20, 0x29, 0x36, 0x01,
   0x00, 0x00, 0x01, 0x00, 0x02, 0x03, 0xF7]

/-- A concrete pre-activation engine state. -/
def freshState : LkState :=
  initState false LkPadMode.DRUM LkPotMode.VOLUME LkFaderMode.VOLUME

/-- Witness for C1 at a concrete Launchkey 49 reply. -/
theorem c1_witness :
    (handle_midi_sysex freshState replyBuf49).1.has_faders = true
    ∧ (handle_midi_sysex freshState replyBuf49).2
        = [[0x9F, 0x0C, 0x7F], [0x9F, 0x0A, 0x7F]]
    ∧ (handle_midi_sysex freshState replyBuf49).1.in_daw_mode = true
    ∧ (handle_midi_sysex freshState replyBuf49).1.current_pot_mode = LkPotMode.PAN
    ∧ (handle_midi_sysex freshState replyBuf49).1.current_fader_mode = LkFaderMode.VOLUME :=
  c1_ident_reply_activation freshState replyBuf49 true (by decide) (by decide) (by decide)

/-- C5: any sysex failing some field check of the identification envelope is
silently dropped — the state is unchanged and nothing is sent. -/
theorem c5_invalid_sysex_dropped (st : LkState) (buf : List Nat)
    (h : validIdentReply buf = false) :
    handle_midi_sysex st buf = (st, []) := by
  by_cases h1 : sysexOuterCheck buf = true
  · have h2 : ¬ sysexInnerCheck buf = true := by
      intro h2
      rw [validIdentReply, h1, h2] at h
      exact Bool.noConfusion h
    simp [handle_midi_sysex, h1, h2]
  · simp [handle_midi_sysex, h1]

/-- A reply whose vendor-signature byte 5 is wrong (0x01 instead of 0x00). -/
def badSigBuf : List Nat :=
  [0xF0, 0x7E, 0x00, 0x06, 0x02, 0x01, 0x20, 0x29, 0x36, 0x01,
   0x00, 0x00, 0x01, 0x00, 0x02, 0x03, 0xF7]

/-- Witness for C5 on a reply with a wrong signature byte. -/
theorem c5_witness : handle_midi_sysex freshState badSigBuf = (freshState, []) :=
  c5_invalid_sysex_dropped freshState badSigBuf (by decide)

/-- C6: teardown while `device_active` and `in_daw_mode` sends exactly the
note-off pair `8F 0C 00` then `8F 0A 00` and clears `in_daw_mode`; a second
invocation (or one outside DAW mode) sends nothing and changes nothing. -/
theorem c6_teardown_exit_once (st : LkState)
    (hA : st.device_active = true) (hD : st.in_daw_mode = true) :
    stop_midi_handling st
      = ({ st with in_daw_mode := false }, [[0x8F, 0x0C, 0x00], [0x8F, 0x0A, 0x00]])
    ∧ stop_midi_handling (stop_midi_handling st).1 = ((stop_midi_handling st).1, [])
    ∧ (∀ st2 : LkState, st2.in_daw_mode = false → stop_midi_handling st2 = (st2, [])) := by
  have h1 : stop_midi_handling st
      = ({ st with in_daw_mode := false }, [[0x8F, 0x0C, 0x00], [0x8F, 0x0A, 0x00]]) := by
    simp [stop_midi_handling, hA, hD]
  refine ⟨h1, ?_, ?_⟩
  · rw [h1]
    simp [stop_midi_handling]
  · intro st2 h2
    simp [stop_midi_handling, h2]

/-- A concrete active in-DAW-mode engine state. -/
def activeDawState : LkState :=
  { freshState with connection_state := 3, device_active := true, in_daw_mode := true }

/-- Witness for C6 at a concrete active state. -/
theorem c6_witness :
    stop_midi_handling activeDawState
      = ({ activeDawState with in_daw_mode := false },
         [[0x8F, 0x0C, 0x00], [0x8F, 0x0A, 0x00]]) :=
  (c6_teardown_exit_once activeDawState rfl rfl).1

/-- C7: on the touch channel, a CC whose offset from the bank's starting CC
is inside the bank's index range (8 pots, 9 faders) produces a touch event for
that index with `on = value > 64`; offsets outside the range, and CCs below
the starting CC, do nothing. -/
theorem c7_touch_channel (b : Bank) (v id : Nat) :
    (id < 9 → (id < 8 ∨ b.faders = true) →
      midi_cc_receiver_15 b (startingCC b.faders + id) v
        = touch_event b id (decide (64 < v)))
    ∧ ((9 ≤ id ∨ (8 ≤ id ∧ b.faders = false)) →
      midi_cc_receiver_15 b (startingCC b.faders + id) v = [])
    ∧ (∀ c, c < startingCC b.faders → midi_cc_receiver_15 b c v = []) := by
  have hnl : ¬ (startingCC b.faders + id < startingCC b.faders) := by omega
  have hid : startingCC b.faders + id - startingCC b.faders = id := by omega
  refine ⟨?_, ?_, ?_⟩
  · intro h9 h8
    have hcond : ¬ (9 ≤ id ∨ (8 ≤ id ∧ b.faders = false)) := by
      rintro (h | ⟨h, hf⟩)
      · omega
      · rcases h8 with h8 | h8
        · omega
        · rw [h8] at hf
          exact Bool.noConfusion hf
    simp [midi_cc_receiver_15, hnl, hid, hcond]
  · intro hcond
    simp [midi_cc_receiver_15, hnl, hid, hcond]
  · intro c hc
    simp [midi_cc_receiver_15, hc]

/-- A concrete control handle whose interface-to-internal mapping is the
identity. -/
def demoHandle : Handle := { hid := 5, interface_to_internal := fun q => q }

/-- A concrete pot bank with index 0 bound to `demoHandle`. -/
def demoBank : Bank := { faders := false, current_mode := 3, controllables := [some demoHandle] }

/-- Witness for C7: touch-on for pot index 0 at CC 0x15 with value 100. -/
theorem c7_witness :
    midi_cc_receiver_15 demoBank (startingCC false + 0) 100
      = touch_event demoBank 0 true := by
  have h := (c7_touch_channel demoBank 100 0).1 (by omega) (Or.inl (by omega))
  simpa using h

/-- C8: a value update on a bound index first issues `start_touch`, then
writes `interface_to_internal (raw / 127)` with `NoGroup` semantics; the
normalized value is 1 at raw 127 and 0 at raw 0; unbound indices do
nothing. -/
theorem c8_value_update (b : Bank) (id raw : Nat) (h : Handle)
    (hb : b.controllables[id]? = some (some h)) :
    new_value_received b id raw
      = [ Eff.startTouch h.hid
        , Eff.setValue h.hid (h.interface_to_internal ((raw : ℚ) / 127))
            GroupDisposition.NoGroup ]
    ∧ ((127 : ℚ) / 127 = 1 ∧ (0 : ℚ) / 127 = 0)
    ∧ (∀ b2 id2, bindingAt b2 id2 = none → new_value_received b2 id2 raw = []) := by
  refine ⟨?_, ⟨by norm_num, by norm_num⟩, ?_⟩
  · simp [new_value_received, hb]
  · intro b2 id2 h2
    rcases hg : b2.controllables[id2]? with _ | (_ | hh)
    · simp [new_value_received, hg]
    · simp [new_value_received, hg]
    · rw [bindingAt, hg] at h2
      simp at h2

/-- Witness for C8: raw value 127 on the bound index 0 of `demoBank` writes
internal value 1 with `NoGroup` after a defensive `start_touch`. -/
theorem c8_witness :
    new_value_received demoBank 0 127
      = [Eff.startTouch 5, Eff.setValue 5 1 GroupDisposition.NoGroup] := by
  have h := (c8_value_update demoBank 0 127 demoHandle rfl).1
  norm_num [demoHandle] at h
  exact h

/-- C9: a value-channel CC on the bank's mode-select controller (0x09 pots,
0x0A faders) triggers a mode switch; payload 0 resolves to `MODE_CUSTOM0` and
any nonzero payload v becomes mode v. -/
theorem c9_mode_select (sess : SessionM) (b : Bank) (c v : Nat)
    (hc : (b.faders = false ∧ c = 0x09) ∨ (b.faders = true ∧ c = 0x0A)) :
    midi_cc_receiver_16 sess b c v
      = (mode_switch sess (if v = 0 then MODE_CUSTOM0 else v) b, [])
    ∧ (midi_cc_receiver_16 sess b c 0).1.current_mode = MODE_CUSTOM0 := by
  constructor
  · simp [midi_cc_receiver_16, hc]
  · simp [midi_cc_receiver_16, hc, mode_switch]

/-- A concrete one-track session (no plugin). -/
def demoSession : SessionM := { tracks := [] }

/-- Witness for C9: mode-select value 0 on a pot bank resolves to
`MODE_CUSTOM0`. -/
theorem c9_witness :
    midi_cc_receiver_16 demoSession demoBank 0x09 0
      = (mode_switch demoSession MODE_CUSTOM0 demoBank, [])
    ∧ (midi_cc_receiver_16 demoSession demoBank 0x09 0).1.current_mode = MODE_CUSTOM0 := by
  have h := c9_mode_select demoSession demoBank 0x09 0 (Or.inl ⟨rfl, rfl⟩)
  simpa using h

lemma conn_after (st : LkState) (i y : Bool) :
    (port_connection_handler st i y).connection_state
      = updateConnState st.connection_state i y := by
  unfold port_connection_handler
  split <;> rfl

lemma active_after (st : LkState) (i y : Bool) :
    (port_connection_handler st i y).device_active
      = decide (updateConnState st.connection_state i y &&& 3 = 3) := by
  have h3 : InputConnected ||| OutputConnected = 3 := by decide
  unfold port_connection_handler
  rw [h3]
  split <;> simp_all

lemma updateConn_lt (cs : Nat) (i y : Bool) (h : cs < 4) : updateConnState cs i y < 4 := by
  unfold updateConnState InputConnected OutputConnected
  interval_cases cs <;> cases i <;> cases y <;> decide

/-- The reachable-state invariant of the port handler: only the two low bits
are ever set, and `device_active` tracks whether both are set. -/
def portInv (st : LkState) : Prop :=
  st.connection_state < 4 ∧ (st.device_active = true ↔ st.connection_state &&& 3 = 3)

lemma port_step_inv (st : LkState) (i y : Bool) (h : portInv st) :
    portInv (port_connection_handler st i y) := by
  refine ⟨?_, ?_⟩
  · rw [conn_after]
    exact updateConn_lt _ _ _ h.1
  · rw [active_after, conn_after]
    simp

lemma portRun_inv (evts : List (Bool × Bool)) :
    ∀ st : LkState, portInv st → portInv (portRun st evts) := by
  induction evts with
  | nil => intro st h; simpa [portRun] using h
  | cons e rest ih =>
    intro st h
    have hstep : portRun st (e :: rest) = portRun (port_connection_handler st e.1 e.2) rest := by
      simp [portRun]
    rw [hstep]
    exact ih _ (port_step_inv _ _ _ h)

/-- C3: over any sequence of connectivity events for this surface's own
ports, `device_active` after the last event holds exactly when both the
`InputConnected` and `OutputConnected` bits of `connection_state` are set;
appending the two connect events in either order activates the device. -/
theorem c3_device_active_iff_both (hf : Bool) (pad : LkPadMode) (pot : LkPotMode)
    (fad : LkFaderMode) (evts : List (Bool × Bool)) :
    ((portRun (initState hf pad pot fad) evts).device_active = true
      ↔ ((portRun (initState hf pad pot fad) evts).connection_state &&& InputConnected ≠ 0
         ∧ (portRun (initState hf pad pot fad) evts).connection_state &&& OutputConnected ≠ 0))
    ∧ ∀ pre : List (Bool × Bool),
        (portRun (initState hf pad pot fad)
            (pre ++ [(true, true), (false, true)])).device_active = true
        ∧ (portRun (initState hf pad pot fad)
            (pre ++ [(false, true), (true, true)])).device_active = true := by
  have hc0 : (initState hf pad pot fad).connection_state = 0 := rfl
  have ha0 : (initState hf pad pot fad).device_active = false := rfl
  have hinv0 : portInv (initState hf pad pot fad) := by
    constructor
    · rw [hc0]; decide
    · rw [ha0, hc0]; decide
  constructor
  · obtain ⟨hlt, hiff⟩ := portRun_inv evts _ hinv0
    rw [hiff]
    revert hlt
    generalize (portRun (initState hf pad pot fad) evts).connection_state = c
    intro hlt
    interval_cases c <;> decide
  · intro pre
    obtain ⟨hlt, _⟩ := portRun_inv pre _ hinv0
    have happ : ∀ a b : Bool × Bool,
        portRun (initState hf pad pot fad) (pre ++ [a, b])
          = port_connection_handler
              (port_connection_handler (portRun (initState hf pad pot fad) pre) a.1 a.2)
              b.1 b.2 := by
      intro a b
      simp [portRun, List.foldl_append]
    rw [happ, happ]
    constructor <;>
    · rw [active_after, conn_after]
      revert hlt
      generalize (portRun (initState hf pad pot fad) pre).connection_state = c
      intro hlt
      interval_cases c <;> decide

lemma landFE_ne3 (a : Nat) : (a &&& 0xFFFFFFFE) &&& 3 ≠ 3 := by
  have h2 : (0xFFFFFFFE : Nat) &&& 3 = 2 := by decide
  rw [Nat.land_assoc, h2]
  have h3 : a &&& 2 ≤ 2 := Nat.and_le_right
  omega

lemma landFD_ne3 (a : Nat) : (a &&& 0xFFFFFFFD) &&& 3 ≠ 3 := by
  have h2 : (0xFFFFFFFD : Nat) &&& 3 = 1 := by decide
  rw [Nat.land_assoc, h2]
  have h3 : a &&& 1 ≤ 1 := Nat.and_le_right
  omega

lemma disconnect_inactive (st : LkState) (i : Bool) :
    (port_connection_handler st i false).device_active = false := by
  rw [active_after]
  simp only [decide_eq_false_iff_not]
  cases i <;> simp only [updateConnState, Bool.false_eq_true, if_false, if_true]
  · exact landFD_ne3 _
  · exact landFE_ne3 _

lemma port_preserves (st : LkState) (i y : Bool) :
    (port_connection_handler st i y).in_daw_mode = st.in_daw_mode
    ∧ (port_connection_handler st i y).has_faders = st.has_faders := by
  unfold port_connection_handler
  split <;> exact ⟨rfl, rfl⟩

/-- The engine run of the C2 counterexample: connect both ports, receive a
valid Launchkey 49 identification reply, then disconnect the input port. -/
def c2events : List LkEvent :=
  [ LkEvent.portConn true true
  , LkEvent.portConn false true
  , LkEvent.sysex replyBuf49
  , LkEvent.portConn true false ]

/-- C2 counterexample: after connect-connect-identify-disconnect the engine
is left with `in_daw_mode = true` while `device_active = false` — the claimed
invariant `in_protocol_mode → device_active` fails on the reachable state, and
the disconnect transition did not clear `in_daw_mode`. -/
theorem c2_counterexample_disconnect :
    (lkRun freshState c2events).in_daw_mode = true
    ∧ (lkRun freshState c2events).device_active = false := by decide

/-- C2 amended: `in_daw_mode` can only be set while `device_active` is true
(sysex is only parsed on an active device), and a port-disconnect event always
ends with `device_active = false`; but the disconnect path leaves
`in_daw_mode` (and `has_faders`) unchanged, so `in_daw_mode` does not imply
`device_active` afterwards, and there is no `device_variant` to reset. -/
theorem c2_amended_daw_mode (st : LkState) (buf : List Nat) (i y : Bool) :
    (st.device_active = false → lkStep st (LkEvent.sysex buf) = (st, []))
    ∧ (lkStep st (LkEvent.portConn i false)).1.device_active = false
    ∧ (lkStep st (LkEvent.portConn i y)).1.in_daw_mode = st.in_daw_mode
    ∧ (lkStep st (LkEvent.portConn i y)).1.has_faders = st.has_faders := by
  refine ⟨?_, ?_, ?_, ?_⟩
  · intro h
    simp [lkStep, h]
  · exact disconnect_inactive st i
  · exact (port_preserves st i y).1
  · exact (port_preserves st i y).2

/-- Witness for the amended C2: an inactive engine drops a (valid) sysex. -/
theorem c2_witness : lkStep freshState (LkEvent.sysex replyBuf49) = (freshState, []) :=
  (c2_amended_daw_mode freshState replyBuf49 true true).1 rfl

lemma assignFrom_bindingAt (sess : SessionM) (m : Nat) :
    ∀ (fuel i j : Nat),
      ((assignFrom sess m i fuel)[j]?).getD none
        = if j < fuel then (sess.tracks[i + j]?).bind (controlFor m) else none := by
  intro fuel
  induction fuel with
  | zero =>
    intro i j
    simp [assignFrom]
  | succ fuel ih =>
    intro i j
    rcases htr : sess.tracks[i]? with _ | t
    · have hlen : sess.tracks.length ≤ i := by
        by_contra hlt
        push_neg at hlt
        rw [List.getElem?_eq_getElem hlt] at htr
        exact Option.noConfusion htr
      have htr2 : sess.tracks[i + j]? = none := List.getElem?_eq_none (by omega)
      simp [assignFrom, htr, htr2]
    · cases j with
      | zero =>
        simp [assignFrom, htr]
      | succ j =>
        have harith : i + (j + 1) = (i + 1) + j := by omega
        simp only [assignFrom, htr, List.getElem?_cons_succ, ih (i + 1) j, harith]
        exact if_congr (by omega) rfl rfl

lemma mode_switch_bindingAt (sess : SessionM) (m : Nat) (b : Bank) (i : Nat) :
    bindingAt (mode_switch sess m b) i = resolveSpec sess m i := by
  show ((reassign_stripables sess m)[i]?).getD none = resolveSpec sess m i
  unfold reassign_stripables resolveSpec
  by_cases hm : m ≠ MODE_DEVICE
  · rw [if_pos hm, if_pos hm]
    have h := assignFrom_bindingAt sess m 8 0 i
    rw [h]
    simp
  · rw [if_neg hm, if_neg hm]
    unfold deviceAssign
    rcases htr : sess.tracks[0]? with _ | t
    · simp
    · dsimp only
      rcases hpl : t.nth_plugin_0 with _ | pl
      · simp [hpl]
      · dsimp only
        by_cases hi : i < min 8 pl.parameter_count
        · rw [if_pos hi]
          rw [List.getElem?_map, List.getElem?_range hi]
          rfl
        · rw [if_neg hi]
          have hlen : ((List.range (min 8 pl.parameter_count)).map
              (fun k => (pl.nth_parameter k).bind pl.control)).length ≤ i := by
            rw [List.length_map, List.length_range]
            omega
          rw [List.getElem?_eq_none hlen]
          rfl

lemma assignFrom_length (sess : SessionM) (m : Nat) :
    ∀ (fuel i : Nat), (assignFrom sess m i fuel).length ≤ fuel := by
  intro fuel
  induction fuel with
  | zero =>
    intro i
    simp [assignFrom]
  | succ fuel ih =>
    intro i
    rcases htr : sess.tracks[i]? with _ | t
    · simp [assignFrom, htr]
    · simp only [assignFrom, htr, List.length_cons]
      exact Nat.succ_le_succ (ih (i + 1))

lemma reassign_length (sess : SessionM) (m : Nat) :
    (reassign_stripables sess m).length ≤ 8 := by
  unfold reassign_stripables
  split
  · exact assignFrom_length sess m 8 0
  · unfold deviceAssign
    rcases sess.tracks[0]? with _ | t
    · simp
    · dsimp only
      rcases t.nth_plugin_0 with _ | pl
      · simp
      · dsimp only
        rw [List.length_map, List.length_range]
        omega

lemma bankStep_inv (b : Bank) (e : BankEvent) (h : b.controllables.length ≤ 8) :
    (bankStep b e).1.controllables.length ≤ 8 ∧ (bankStep b e).1.faders = b.faders := by
  cases e with
  | cc15 c v => exact ⟨h, rfl⟩
  | cc16 sess c v =>
    show (midi_cc_receiver_16 sess b c v).1.controllables.length ≤ 8
      ∧ (midi_cc_receiver_16 sess b c v).1.faders = b.faders
    unfold midi_cc_receiver_16
    by_cases h1 : (b.faders = false ∧ c = 0x09) ∨ (b.faders = true ∧ c = 0x0A)
    · rw [if_pos h1]
      exact ⟨reassign_length sess _, rfl⟩
    · rw [if_neg h1]
      by_cases h2 : c < startingCC b.faders
      · rw [if_pos h2]
        exact ⟨h, rfl⟩
      · rw [if_neg h2]
        by_cases h3 : 9 ≤ c - startingCC b.faders
            ∨ (8 ≤ c - startingCC b.faders ∧ b.faders = false)
        · rw [if_pos h3]
          exact ⟨h, rfl⟩
        · rw [if_neg h3]
          exact ⟨h, rfl⟩

lemma bankRun_inv (evts : List BankEvent) :
    ∀ b : Bank, b.controllables.length ≤ 8 →
      (bankRun b evts).controllables.length ≤ 8 ∧ (bankRun b evts).faders = b.faders := by
  induction evts with
  | nil =>
    intro b h
    exact ⟨h, rfl⟩
  | cons e rest ih =>
    intro b h
    have hstep : bankRun b (e :: rest) = bankRun (bankStep b e).1 rest := by
      simp [bankRun]
    obtain ⟨h1, h2⟩ := bankStep_inv b e h
    obtain ⟨h3, h4⟩ := ih (bankStep b e).1 h1
    rw [hstep]
    exact ⟨h3, h4.trans h2⟩

lemma initBank_length (sess : SessionM) (fdrs : Bool) :
    (initBank sess fdrs).controllables.length ≤ 8 :=
  reassign_length sess _

/-- C10: in every reachable bank state the `controllables` vector holds at
most 8 entries, so index 8 — the ninth fader position, accepted as in-range
by both CC receivers on a fader bank — is always unbound, and a touch or
value message addressed to it (CC 0x3D) is a silent no-op. -/
theorem c10_bank_size_invariant (sess sess2 : SessionM) (fdrs : Bool)
    (evts : List BankEvent) (v : Nat) :
    (bankRun (initBank sess fdrs) evts).controllables.length ≤ 8
    ∧ bindingAt (bankRun (initBank sess true) evts) 8 = none
    ∧ midi_cc_receiver_15 (bankRun (initBank sess true) evts) 0x3D v = []
    ∧ midi_cc_receiver_16 sess2 (bankRun (initBank sess true) evts) 0x3D v
        = (bankRun (initBank sess true) evts, []) := by
  obtain ⟨hlen, _⟩ := bankRun_inv evts (initBank sess fdrs) (initBank_length sess fdrs)
  obtain ⟨hlen2, hfad2⟩ := bankRun_inv evts (initBank sess true) (initBank_length sess true)
  have hfadT : (bankRun (initBank sess true) evts).faders = true := hfad2
  have hget : (bankRun (initBank sess true) evts).controllables[8]? = none :=
    List.getElem?_eq_none hlen2
  refine ⟨hlen, ?_, ?_, ?_⟩
  · rw [bindingAt, hget]
    rfl
  · rw [midi_cc_receiver_15, startingCC, hfadT]
    norm_num
    rw [touch_event, hget]
  · rw [midi_cc_receiver_16, startingCC, hfadT]
    norm_num
    rw [new_value_received, hget]

/-- C4 amended: after `mode_switch (M)` the bindings are rebuilt in full —
the binding at every index equals the provider resolution of `(M, index)`
evaluated once against the session at switch time (for `MODE_DEVICE` that is
the first `min 8 parameter_count` plugin parameters, trailing indices
unbound), and no touch or value message ever changes the bindings, so an
unresolved index stays unbound until the next mode switch; but `mode_switch`
clears no touch state — the bank keeps no touch bookkeeping and stops no
outstanding gesture (see the counterexample). -/
theorem c4_amended_mode_switch (sess sess2 : SessionM) (m : Nat) (b : Bank) (i c v : Nat) :
    bindingAt (mode_switch sess m b) i = resolveSpec sess m i
    ∧ (bankStep (mode_switch sess m b) (BankEvent.cc15 c v)).1 = mode_switch sess m b
    ∧ (bankStep (mode_switch sess m b) (BankEvent.cc16 sess2 c v)).1
        = (if (b.faders = false ∧ c = 0x09) ∨ (b.faders = true ∧ c = 0x0A)
           then mode_switch sess2 (if v = 0 then MODE_CUSTOM0 else v) (mode_switch sess m b)
           else mode_switch sess m b) := by
  refine ⟨mode_switch_bindingAt sess m b i, rfl, ?_⟩
  have hf : (mode_switch sess m b).faders = b.faders := rfl
  show (midi_cc_receiver_16 sess2 (mode_switch sess m b) c v).1 = _
  unfold midi_cc_receiver_16
  rw [hf]
  by_cases h1 : (b.faders = false ∧ c = 0x09) ∨ (b.faders = true ∧ c = 0x0A)
  · rw [if_pos h1, if_pos h1]
  · rw [if_neg h1, if_neg h1]
    by_cases h2 : c < startingCC b.faders
    · rw [if_pos h2]
    · rw [if_neg h2]
      by_cases h3 : 9 ≤ c - startingCC b.faders
          ∨ (8 ≤ c - startingCC b.faders ∧ b.faders = false)
      · rw [if_pos h3]
      · rw [if_neg h3]

/-- The pan-azimuth control of the counterexample track. -/
def panHandle : Handle := { hid := 1, interface_to_internal := fun q => q }

/-- The gain control of the counterexample track. -/
def gainHandle : Handle := { hid := 2, interface_to_internal := fun q => q }

/-- A track with a gain and a pan control and no plugin. -/
def cexTrack : Track :=
  { gain_control := some gainHandle
  , pan_azimuth_control := some panHandle
  , send_level_0 := none
  , send_level_1 := none
  , nth_plugin_0 := none }

/-- A one-track session for the C4 counterexample. -/
def cexSession : SessionM := { tracks := [cexTrack] }

/-- A pot bank (PAN mode, index 0 bound to the pan control) that received a
touch-on for index 0 and then a mode switch to VOLUME: the pan control is
still gesture-active. -/
def cexMid : BankSys :=
  sysRun { bank := initBank cexSession false, touched := [] }
    [BankEvent.cc15 0x15 127, BankEvent.cc16 cexSession 0x09 1]

/-- C4 counterexample: switching the bank back to PAN mode re-binds index 0
to the still-touched pan control, so directly after this `mode_switch` the
touch state is `[0]`, not empty — `mode_switch` clears bindings but no touch
state. -/
theorem c4_counterexample_touch_state :
    (sysStep cexMid (BankEvent.cc16 cexSession 0x09 3)).bank
      = mode_switch cexSession MODE_PAN cexMid.bank
    ∧ touch_state (sysStep cexMid (BankEvent.cc16 cexSession 0x09 3)) = [0]
    ∧ ([0] : List Nat) ≠ [] := by
  refine ⟨rfl, ?_, by decide⟩
  decide
